import Mathlib

/-!
Verification of the konfug configuration resolver (src/konfug.py).

The embedding models the scalar raw values the resolver handles
(strings, integers, booleans and the Python None object), the process
environment as an association list of string pairs, the merged snapshot
as an association list from keys to values, and each operation of the
source as an executable Lean function.  Exceptions are modelled with
Except; the Python exceptions that matter to the control flow of the
source are the constructors of PyExc.
-/

/-- Raw configuration values: the scalar Python values the resolver
receives from the environment, the datastore snapshot and defaults.
Structured values (lists, mappings) and floats never influence a
control-flow decision of the source and are outside the model. -/
inductive Val where
  | str (s : String)
  | int (n : Int)
  | bool (b : Bool)
  | none
deriving DecidableEq, Repr

/-- The Python exceptions relevant to the control flow of konfug.py. -/
inductive PyExc where
  | stopIteration
  | typeError
  | defaultCredentialsError
  | valueError
  | konfugMissing (key : String) (is_secret : Bool)
  | hotFugError
deriving DecidableEq, Repr

/-- A transform (the apply_ and transform callables of the source): it
may raise, so it returns Except. -/
abbrev Tr := Val → Except PyExc Val

/-- Python truthiness (bool(v)) for the modelled scalar values. -/
def truthy : Val → Bool
  | .str s => s ≠ ""
  | .int n => n ≠ 0
  | .bool b => b
  | .none => false

/-- The numeric value Python uses when comparing across int and bool
(True equals 1, False equals 0). -/
def pyNum : Val → Option Int
  | .int n => some n
  | .bool b => some (if b then 1 else 0)
  | _ => Option.none

/-- Python equality (the == used by the membership test of to_bool):
numbers compare by value across int and bool, strings by content, and
None only equals None. -/
def pyEq (a b : Val) : Bool :=
  match pyNum a, pyNum b with
  | some m, some n => m = n
  | _, _ =>
    match a, b with
    | .str s, .str t => s = t
    | .none, .none => true
    | _, _ => false

/-- Python membership (v in l) over a list of values, via pyEq. -/
def pyMem (v : Val) (l : List Val) : Bool :=
  l.any (pyEq v)

/-- The process environment: names bound to string values. -/
abbrev Env := List (String × String)

/-- A Python dict as the source uses it (datastore records, the merged
snapshot): an association list with unique keys. -/
abbrev Dict := List (String × Val)

/-- First-match association-list lookup (dict subscript / membership). -/
def alookup {α : Type} (d : List (String × α)) (k : String) : Option α :=
  match d with
  | [] => Option.none
  | (k₂, v) :: rest => if k₂ = k then some v else alookup rest k

/-- Python dict item assignment: replace an existing binding in place,
otherwise append. -/
def dictInsert {α : Type} (d : List (String × α)) (k : String) (v : α) :
    List (String × α) :=
  match d with
  | [] => [(k, v)]
  | (k₂, v₂) :: rest =>
    if k₂ = k then (k₂, v) :: rest else (k₂, v₂) :: dictInsert rest k v

/-- Python dict.update: fold every binding of the second dict into the
first, later bindings overriding. -/
def dictUpdate {α : Type} (d other : List (String × α)) : List (String × α) :=
  other.foldl (fun acc kv => dictInsert acc kv.1 kv.2) d

/-- konfug.py line 14: the default registry of falsey expressions. -/
def DEFAULT_FALSEY_EXPRESSIONS : List Val :=
  [.str "0", .str "false", .int 0, .bool false, .none]

namespace Konfug

/-- konfug.py lines 282-284: Konfug.to_bool, val not in falsey_expressions. -/
def to_bool (val : Val) (falsey_expressions : List Val) : Bool :=
  !(pyMem val falsey_expressions)

end Konfug

/-- konfug.py lines 47-59: a HotFug handle as built by HotFug.__init__.
It stores the key, the static default and the transform; the transform
defaults to the identity when the apply_ argument is absent (falsey). -/
structure HotFug where
  key : String
  default_val : Val
  apply_ : Tr

/-- konfug.py line 240 together with lines 55-58: constructing a handle
from the raw_setting arguments; a missing apply_ becomes the identity. -/
def HotFug.make (key : String) (default_val : Val) (a : Option Tr) : HotFug :=
  ⟨key, default_val, match a with
    | some f => f
    | Option.none => fun v => .ok v⟩

/-- konfug.py lines 82-90: HotFug.retrieve.  The live firestore document
for the key is passed in as doc (some data when doc.exists, none when
absent).  When the document exists the transform is applied to its value
field (missing field reads as None); otherwise a truthy static default
is returned, else None. -/
def HotFug.retrieve (h : HotFug) (doc : Option Dict) : Except PyExc Val :=
  match doc with
  | some data => h.apply_ ((alookup data "value").getD .none)
  | Option.none =>
    if truthy h.default_val then .ok h.default_val else .ok .none

namespace HotFugCollection

/-- konfug.py lines 121-124: HotFugCollection.__setattr__.  Assigning a
HotFug handle appends the attribute NAME to the _hotconfs list; the
value itself is stored as an ordinary attribute and no cache of fetched
values exists anywhere in the class. -/
def setattr_hot (hotconfs : List String) (name : String) : List String :=
  hotconfs ++ [name]

/-- konfug.py lines 108-119: HotFugCollection.__getattribute__ on an
attribute holding the HotFug handle h, with the live fetch outcome doc.
retrieve is called; when it yields None the code falls back to
self._hotconfs[attribute].  _hotconfs is a list, so when the attribute
name is a member the subscript indexes a list with a string and Python
raises TypeError; when it is not a member KonfugMissingError is raised.
The hotconfs state is never modified by an access. -/
def getattr_hot (hotconfs : List String) (attr : String) (h : HotFug)
    (doc : Option Dict) : Except PyExc Val :=
  match h.retrieve doc with
  | .error e => .error e
  | .ok v =>
    if v = Val.none then
      if attr ∈ hotconfs then .error .typeError
      else .error (.konfugMissing attr false)
    else .ok v

end HotFugCollection

/-- The outcome of raw_setting: either a resolved value or, on the hot
path, a live HotFug handle (konfug.py line 240 returns the handle
object itself). -/
inductive RawOut where
  | val (v : Val)
  | handle (h : HotFug)

/-- The state of a Konfug instance after construction (konfug.py
lines 128-225): the merged snapshot _common_settings, the falsey
registry, the stringlist separator, the skip flags, the secret-manager
access (the client composed with the resource-name template and the
payload decode of lines 310-313), and the coercion callables assigned
in __init__.  The int, float, dict and stringlist coercions are carried
as function-valued fields: no claim depends on their numeric or JSON
parsing semantics, only on how raw_setting routes values through them. -/
structure Konfug where
  common_settings : Dict
  falsey_expressions : List Val
  stringlist_separator : String
  skip_firebase : Bool
  skip_secret_manager : Bool
  secret_fetch : String → Except PyExc String
  to_stringlist_tr : Tr
  to_int_tr : Tr
  to_dict_tr : Tr
  to_float_tr : Tr

namespace Konfug

/-- konfug.py lines 157-159: self._to_bool, the static to_bool with the
falsey registry of the instance. -/
def to_bool_tr (c : Konfug) : Tr :=
  fun v => .ok (.bool (to_bool v c.falsey_expressions))

/-- konfug.py lines 236-252: Konfug.raw_setting.  With hot requested and
firebase not skipped, a handle is returned at once.  Otherwise the raw
value resolves as environment, then merged snapshot, then a default that
is not None, then None when nullable, else KonfugMissingError; finally a
callable apply_ is applied to the resolved value. -/
def raw_setting (c : Konfug) (env : Env) (key : String) (default_val : Val)
    (apply_ : Option Tr) (nullable : Bool) (hot : Bool) :
    Except PyExc RawOut :=
  if hot && !c.skip_firebase then
    .ok (.handle (HotFug.make key default_val apply_))
  else
    let resolved : Except PyExc Val :=
      match alookup env key with
      | some s => .ok (.str s)
      | Option.none =>
        match alookup c.common_settings key with
        | some v => .ok v
        | Option.none =>
          if default_val ≠ Val.none then .ok default_val
          else if !nullable then .error (.konfugMissing key false)
          else .ok .none
    match resolved, apply_ with
    | .error e, _ => .error e
    | .ok v, some f => (f v).map RawOut.val
    | .ok v, Option.none => .ok (.val v)

/-- konfug.py lines 254-255: Konfug.string. -/
def string (c : Konfug) (env : Env) (key : String) (default_val : Val)
    (hot : Bool) : Except PyExc RawOut :=
  c.raw_setting env key default_val Option.none false hot

/-- konfug.py lines 257-260: Konfug.flag. -/
def flag (c : Konfug) (env : Env) (key : String) (default_val : Val)
    (hot : Bool) : Except PyExc RawOut :=
  c.raw_setting env key default_val (some c.to_bool_tr) false hot

/-- konfug.py lines 262-265: Konfug.stringlist. -/
def stringlist (c : Konfug) (env : Env) (key : String) (default_val : Val)
    (hot : Bool) : Except PyExc RawOut :=
  c.raw_setting env key default_val (some c.to_stringlist_tr) false hot

/-- konfug.py lines 267-270: Konfug.integer. -/
def integer (c : Konfug) (env : Env) (key : String) (default_val : Val)
    (hot : Bool) : Except PyExc RawOut :=
  c.raw_setting env key default_val (some c.to_int_tr) false hot

/-- konfug.py lines 272-275: Konfug.dictionary. -/
def dictionary (c : Konfug) (env : Env) (key : String) (default_val : Val)
    (hot : Bool) : Except PyExc RawOut :=
  c.raw_setting env key default_val (some c.to_dict_tr) false hot

/-- konfug.py lines 277-280: Konfug.floatnum. -/
def floatnum (c : Konfug) (env : Env) (key : String) (default_val : Val)
    (hot : Bool) : Except PyExc RawOut :=
  c.raw_setting env key default_val (some c.to_float_tr) false hot

/-- konfug.py lines 304-322: Konfug.secret.  Environment first; with the
secret manager skipped (or its client None, which construction makes
equivalent) no value is fetched; otherwise the vault payload is decoded
and an optional callable transform applied.  A value of None then falls
back to a TRUTHY default, else KonfugMissingError(key, is_secret). -/
def secret (c : Konfug) (env : Env) (key : String) (default_val : Val)
    (transform : Option Tr) : Except PyExc Val :=
  let fetched : Except PyExc Val :=
    match alookup env key with
    | some s => .ok (.str s)
    | Option.none =>
      if c.skip_secret_manager then .ok .none
      else
        match c.secret_fetch key with
        | .error e => .error e
        | .ok s =>
          match transform with
          | some t => t (.str s)
          | Option.none => .ok (.str s)
  match fetched with
  | .error e => .error e
  | .ok val =>
    if val = Val.none then
      if truthy default_val then .ok default_val
      else .error (.konfugMissing key true)
    else .ok val

end Konfug

/-- The exceptions caught by the construction handler, konfug.py
line 218: StopIteration, TypeError, DefaultCredentialsError. -/
def recoverable : PyExc → Bool
  | .stopIteration => true
  | .typeError => true
  | .defaultCredentialsError => true
  | _ => false

/-- konfug.py lines 204-211: the fetch_kinds closure.  With the
datastore skipped the result is the empty dict.  Otherwise the query
for the namespace runs; query failures (connectivity, credentials, a
type error while converting the record) surface as the corresponding
exception, and dict(next(iter(kinds))) raises StopIteration when the
query yields zero records, else converts the FIRST record. -/
def fetch_kinds (skip_datastore : Bool)
    (query : String → Except PyExc (List Dict)) (ns : String) :
    Except PyExc Dict :=
  if skip_datastore then .ok []
  else
    match query ns with
    | .error e => .error e
    | .ok [] => .error .stopIteration
    | .ok (r :: _) => .ok r

/-- konfug.py lines 191-225: the snapshot-building part of
Konfug.__init__, producing the final _common_settings (the merged
snapshot) or a construction failure.  The datastore client and its
failures, including a construction-time DefaultCredentialsError, are
represented by the query function.  The try block fetches the specific
namespace, then the common namespace when one was configured; on a
caught exception (line 218) a set force flag re-raises, an unset one
continues with the empty snapshot; only when both fetches succeed does
the else branch merge, with specific values overriding common ones. -/
def build_snapshot (skip_datastore force_datastore : Bool)
    (query : String → Except PyExc (List Dict)) (ns : String)
    (common_namespace : Option String) : Except PyExc Dict :=
  let attempt : Except PyExc (Dict × Dict) :=
    match fetch_kinds skip_datastore query ns with
    | .error e => .error e
    | .ok settings =>
      match common_namespace with
      | some cns =>
        match fetch_kinds skip_datastore query cns with
        | .error e => .error e
        | .ok common_settings => .ok (settings, common_settings)
      | Option.none => .ok (settings, [])
  match attempt with
  | .ok (settings, common_settings) => .ok (dictUpdate common_settings settings)
  | .error e =>
    if recoverable e then
      if force_datastore then .error e else .ok []
    else .error e

/-- The identity transform, for concrete instances. -/
def idTr : Tr := fun v => .ok v

/-- A concrete resolver with an empty snapshot, the default falsey
registry, firebase active and the secret manager skipped. -/
def konfug0 : Konfug :=
  ⟨[], DEFAULT_FALSEY_EXPRESSIONS, ",", false, true,
    fun _ => .ok "", idTr, idTr, idTr, idTr⟩

/-- A concrete resolver whose snapshot binds S to the string sv. -/
def konfug1 : Konfug :=
  ⟨[("S", .str "sv")], DEFAULT_FALSEY_EXPRESSIONS, ",", false, true,
    fun _ => .ok "", idTr, idTr, idTr, idTr⟩

/-- C8: for every value v and registry r, to_bool returns false iff v is
a member of r under Python equality; with the default registry, the
string 0 coerces to false while the empty string and the integer 1
coerce to true. -/
theorem C8_to_bool_membership :
    (∀ (v : Val) (r : List Val), Konfug.to_bool v r = false ↔ pyMem v r = true)
    ∧ Konfug.to_bool (.str "0") DEFAULT_FALSEY_EXPRESSIONS = false
    ∧ Konfug.to_bool (.str "") DEFAULT_FALSEY_EXPRESSIONS = true
    ∧ Konfug.to_bool (.int 1) DEFAULT_FALSEY_EXPRESSIONS = true := by
  refine ⟨fun v r => ?_, by decide, by decide, by decide⟩
  unfold Konfug.to_bool
  cases h : pyMem v r <;> simp [h]

/-- C1: with hot not requested, raw_setting resolves in the fixed
precedence order: an environment binding wins outright; else a snapshot
binding; else a default that is not None; else None when nullable; else
KonfugMissingError for the key. -/
theorem C1_setting_precedence (c : Konfug) (env : Env) (key : String)
    (d : Val) (nb : Bool) :
    (∀ s, alookup env key = some s →
      c.raw_setting env key d Option.none nb false = .ok (.val (.str s)))
    ∧ (alookup env key = Option.none →
      ∀ v, alookup c.common_settings key = some v →
      c.raw_setting env key d Option.none nb false = .ok (.val v))
    ∧ (alookup env key = Option.none →
      alookup c.common_settings key = Option.none → d ≠ Val.none →
      c.raw_setting env key d Option.none nb false = .ok (.val d))
    ∧ (alookup env key = Option.none →
      alookup c.common_settings key = Option.none → d = Val.none →
      nb = true →
      c.raw_setting env key d Option.none nb false = .ok (.val .none))
    ∧ (alookup env key = Option.none →
      alookup c.common_settings key = Option.none → d = Val.none →
      nb = false →
      c.raw_setting env key d Option.none nb false =
        .error (.konfugMissing key false)) := by
  refine ⟨?_, ?_, ?_, ?_, ?_⟩
  · intro s h
    simp [Konfug.raw_setting, h]
  · intro h v h₂
    simp [Konfug.raw_setting, h, h₂]
  · intro h h₂ hd
    simp [Konfug.raw_setting, h, h₂, hd]
  · intro h h₂ hd hn
    subst hd; subst hn
    simp [Konfug.raw_setting, h, h₂]
  · intro h h₂ hd hn
    subst hd; subst hn
    simp [Konfug.raw_setting, h, h₂]

/-- Witness for C1 at concrete inputs exercising all five branches. -/
theorem C1_setting_precedence_witness :
    konfug1.raw_setting [("K", "ev")] "K" (.str "d") Option.none false false
      = .ok (.val (.str "ev"))
    ∧ konfug1.raw_setting [] "S" (.str "d") Option.none false false
      = .ok (.val (.str "sv"))
    ∧ konfug1.raw_setting [] "X" (.str "d") Option.none false false
      = .ok (.val (.str "d"))
    ∧ konfug1.raw_setting [] "X" Val.none Option.none true false
      = .ok (.val .none)
    ∧ konfug1.raw_setting [] "X" Val.none Option.none false false
      = .error (.konfugMissing "X" false) := by
  refine ⟨?_, ?_, ?_, ?_, ?_⟩
  · exact (C1_setting_precedence konfug1 [("K", "ev")] "K" (.str "d")
      false).1 "ev" rfl
  · exact (C1_setting_precedence konfug1 [] "S" (.str "d") false).2.1
      rfl (.str "sv") (by decide)
  · exact (C1_setting_precedence konfug1 [] "X" (.str "d") false).2.2.1
      rfl (by decide) (by decide)
  · exact (C1_setting_precedence konfug1 [] "X" Val.none true).2.2.2.1
      rfl (by decide) rfl rfl
  · exact (C1_setting_precedence konfug1 [] "X" Val.none false).2.2.2.2
      rfl (by decide) rfl rfl

/-- C3 counterexample: a nullable lookup that resolves to the absent
value does NOT return absent untouched; the callable transform is
invoked on it.  With the to_bool transform of the instance, the result
is the boolean false, not None. -/
theorem C3_transform_on_absent_counterexample :
    konfug0.raw_setting [] "K" Val.none (some konfug0.to_bool_tr) true false
      = .ok (.val (.bool false))
    ∧ konfug0.raw_setting [] "K" Val.none (some konfug0.to_bool_tr) true false
      ≠ .ok (.val Val.none) := by
  have h : konfug0.raw_setting [] "K" Val.none (some konfug0.to_bool_tr)
      true false = .ok (.val (.bool false)) := by rfl
  refine ⟨h, ?_⟩
  rw [h]
  simp

/-- C3 amended: a supplied callable transform is applied to the resolved
raw value unconditionally, including to the absent value of a nullable
lookup that found nothing; the transform result (value or raised
exception) becomes the result of the call.  Only a MissingSetting
failure skips the transform. -/
theorem C3_transform_unconditional (c : Konfug) (env : Env) (key : String)
    (d : Val) (f : Tr) (nb : Bool) :
    (∀ s, alookup env key = some s →
      c.raw_setting env key d (some f) nb false = (f (.str s)).map RawOut.val)
    ∧ (alookup env key = Option.none →
      ∀ v, alookup c.common_settings key = some v →
      c.raw_setting env key d (some f) nb false = (f v).map RawOut.val)
    ∧ (alookup env key = Option.none →
      alookup c.common_settings key = Option.none → d ≠ Val.none →
      c.raw_setting env key d (some f) nb false = (f d).map RawOut.val)
    ∧ (alookup env key = Option.none →
      alookup c.common_settings key = Option.none → d = Val.none →
      nb = true →
      c.raw_setting env key d (some f) nb false = (f Val.none).map RawOut.val)
    ∧ (alookup env key = Option.none →
      alookup c.common_settings key = Option.none → d = Val.none →
      nb = false →
      c.raw_setting env key d (some f) nb false =
        .error (.konfugMissing key false)) := by
  refine ⟨?_, ?_, ?_, ?_, ?_⟩
  · intro s h
    simp [Konfug.raw_setting, h]
  · intro h v h₂
    simp [Konfug.raw_setting, h, h₂]
  · intro h h₂ hd
    simp [Konfug.raw_setting, h, h₂, hd]
  · intro h h₂ hd hn
    subst hd; subst hn
    simp [Konfug.raw_setting, h, h₂]
  · intro h h₂ hd hn
    subst hd; subst hn
    simp [Konfug.raw_setting, h, h₂]

/-- Witness for C3 amended: the transform runs on the absent value of a
nullable miss, and on an environment hit. -/
theorem C3_transform_unconditional_witness :
    konfug0.raw_setting [] "K" Val.none (some konfug0.to_bool_tr) true false
      = .ok (.val (.bool false))
    ∧ konfug0.raw_setting [("K", "x")] "K" Val.none (some konfug0.to_bool_tr)
        false false = .ok (.val (.bool true)) := by
  constructor
  · exact ((C3_transform_unconditional konfug0 [] "K" Val.none
      konfug0.to_bool_tr true).2.2.2.1 rfl rfl rfl rfl).trans (by rfl)
  · exact ((C3_transform_unconditional konfug0 [("K", "x")] "K" Val.none
      konfug0.to_bool_tr false).1 "x" rfl).trans (by rfl)



/-- A Konfug whose skip_firebase flag is unset, every other field free:
the resolver of the C9 scenario. -/
def hotKonfug (snap : Dict) (fe : List Val) (sep : String) (ssm : Bool)
    (sf : String → Except PyExc String) (t₁ t₂ t₃ t₄ : Tr) : Konfug :=
  ⟨snap, fe, sep, false, ssm, sf, t₁, t₂, t₃, t₄⟩

/-- C9: with hot requested on a resolver whose skip_firebase flag is
unset, raw_setting and every typed accessor return the live handle
built from the key, the default and the accessor transform, whatever
the environment and snapshot contain; the final conjunct makes the
environment-sets-the-key case explicit. -/
theorem C9_hot_returns_handle (snap : Dict) (fe : List Val) (sep : String)
    (ssm : Bool) (sf : String → Except PyExc String) (t₁ t₂ t₃ t₄ : Tr)
    (env : Env) (key : String) (d : Val) (a : Option Tr) (nb : Bool)
    (s : String) :
    (hotKonfug snap fe sep ssm sf t₁ t₂ t₃ t₄).raw_setting env key d a nb true
      = .ok (.handle (HotFug.make key d a))
    ∧ (hotKonfug snap fe sep ssm sf t₁ t₂ t₃ t₄).string env key d true
      = .ok (.handle (HotFug.make key d Option.none))
    ∧ (hotKonfug snap fe sep ssm sf t₁ t₂ t₃ t₄).flag env key d true
      = .ok (.handle (HotFug.make key d
          (some (hotKonfug snap fe sep ssm sf t₁ t₂ t₃ t₄).to_bool_tr)))
    ∧ (hotKonfug snap fe sep ssm sf t₁ t₂ t₃ t₄).stringlist env key d true
      = .ok (.handle (HotFug.make key d (some t₁)))
    ∧ (hotKonfug snap fe sep ssm sf t₁ t₂ t₃ t₄).integer env key d true
      = .ok (.handle (HotFug.make key d (some t₂)))
    ∧ (hotKonfug snap fe sep ssm sf t₁ t₂ t₃ t₄).dictionary env key d true
      = .ok (.handle (HotFug.make key d (some t₃)))
    ∧ (hotKonfug snap fe sep ssm sf t₁ t₂ t₃ t₄).floatnum env key d true
      = .ok (.handle (HotFug.make key d (some t₄)))
    ∧ (hotKonfug snap fe sep ssm sf t₁ t₂ t₃ t₄).raw_setting
        ((key, s) :: env) key d a nb true
      = .ok (.handle (HotFug.make key d a)) :=
  ⟨rfl, rfl, rfl, rfl, rfl, rfl, rfl, rfl⟩

/-- The handle of the C2 scenario: key a, no default, no transform. -/
def hotfug_a : HotFug := HotFug.make "a" Val.none Option.none

/-- The _hotconfs state after assigning the handle to attribute a. -/
def hotconfs_a : List String := HotFugCollection.setattr_hot [] "a"

/-- C2 at the failing input: the first access fetches v1 successfully,
but nothing is stored (the access leaves the _hotconfs state untouched
by construction), and the next access, whose live fetch returns absent,
raises TypeError from self._hotconfs indexed with the attribute name —
it neither returns v1 nor succeeds, contradicting the staleness law. -/
theorem C2_hot_cache_bug :
    HotFugCollection.getattr_hot hotconfs_a "a" hotfug_a
        (some [("value", .str "v1")]) = .ok (.str "v1")
    ∧ HotFugCollection.getattr_hot hotconfs_a "a" hotfug_a Option.none
      = .error .typeError
    ∧ HotFugCollection.getattr_hot hotconfs_a "a" hotfug_a Option.none
      ≠ .ok (.str "v1") := by
  have h : HotFugCollection.getattr_hot hotconfs_a "a" hotfug_a Option.none
      = .error .typeError := by rfl
  refine ⟨by rfl, h, ?_⟩
  rw [h]
  simp

/-- C7: the environment always wins for secrets, whatever the vault
would return; and when no value is obtained (environment misses, secret
manager skipped) a TRUTHY default is returned while a falsy default
(None, the empty string, zero) raises KonfugMissingError for the
secret. -/
theorem C7_secret_env_wins_truthy_default (c : Konfug) (env : Env)
    (key : String) (d : Val) (t : Option Tr) :
    (∀ s, alookup env key = some s → c.secret env key d t = .ok (.str s))
    ∧ (alookup env key = Option.none → c.skip_secret_manager = true →
      ((truthy d = true → c.secret env key d t = .ok d)
       ∧ (truthy d = false →
          c.secret env key d t = .error (.konfugMissing key true)))) := by
  constructor
  · intro s h
    simp [Konfug.secret, h]
  · intro h hsm
    constructor
    · intro ht
      simp [Konfug.secret, h, hsm, ht]
    · intro ht
      simp [Konfug.secret, h, hsm, ht]

/-- Witness for C7: environment override, a truthy default, and the
empty-string and zero defaults that are treated as absent. -/
theorem C7_secret_env_wins_truthy_default_witness :
    konfug0.secret [("K", "ev")] "K" (.str "d") Option.none = .ok (.str "ev")
    ∧ konfug0.secret [] "K" (.str "d") Option.none = .ok (.str "d")
    ∧ konfug0.secret [] "K" (.str "") Option.none
      = .error (.konfugMissing "K" true)
    ∧ konfug0.secret [] "K" (.int 0) Option.none
      = .error (.konfugMissing "K" true) := by
  refine ⟨?_, ?_, ?_, ?_⟩
  · exact (C7_secret_env_wins_truthy_default konfug0 [("K", "ev")] "K"
      (.str "d") Option.none).1 "ev" rfl
  · exact ((C7_secret_env_wins_truthy_default konfug0 [] "K"
      (.str "d") Option.none).2 rfl rfl).1 (by decide)
  · exact ((C7_secret_env_wins_truthy_default konfug0 [] "K"
      (.str "") Option.none).2 rfl rfl).2 (by decide)
  · exact ((C7_secret_env_wins_truthy_default konfug0 [] "K"
      (.int 0) Option.none).2 rfl rfl).2 (by decide)

/-- C4: when the specific-namespace query fails with one of the caught
exceptions (connection failure, absent credentials, a type error),
construction with the force flag unset yields the empty snapshot while
the force flag set re-raises the same exception; and on a resolver
whose snapshot is empty, lookups fall through to the environment and
the default. -/
theorem C4_construction_failure_policy
    (query : String → Except PyExc (List Dict)) (ns : String)
    (cns : Option String) (e : PyExc) (hq : query ns = .error e)
    (hrec : recoverable e = true) :
    build_snapshot false false query ns cns = .ok []
    ∧ build_snapshot false true query ns cns = .error e
    ∧ (∀ (c : Konfug) (env : Env) (key : String) (d : Val) (nb : Bool),
      c.common_settings = [] →
      ((∀ s, alookup env key = some s →
        c.raw_setting env key d Option.none nb false = .ok (.val (.str s)))
       ∧ (alookup env key = Option.none → d ≠ Val.none →
        c.raw_setting env key d Option.none nb false = .ok (.val d)))) := by
  refine ⟨?_, ?_, ?_⟩
  · simp [build_snapshot, fetch_kinds, hq, hrec]
  · simp [build_snapshot, fetch_kinds, hq, hrec]
  · intro c env key d nb hc
    constructor
    · intro s h
      simp [Konfug.raw_setting, h]
    · intro h hd
      simp [Konfug.raw_setting, h, hc, alookup, hd]

/-- Witness for C4: an unreachable store (credentials failure) with the
force flag unset and set, and the fall-through of the empty-snapshot
resolver to the environment and to the default. -/
theorem C4_construction_failure_policy_witness :
    build_snapshot false false (fun _ => .error .defaultCredentialsError)
      "ns" Option.none = .ok []
    ∧ build_snapshot false true (fun _ => .error .defaultCredentialsError)
      "ns" Option.none = .error .defaultCredentialsError
    ∧ konfug0.raw_setting [("K", "ev")] "K" (.str "d") Option.none false false
      = .ok (.val (.str "ev"))
    ∧ konfug0.raw_setting [] "K" (.str "d") Option.none false false
      = .ok (.val (.str "d")) := by
  refine ⟨?_, ?_, ?_, ?_⟩
  · exact (C4_construction_failure_policy
      (fun _ => .error .defaultCredentialsError) "ns" Option.none
      .defaultCredentialsError rfl rfl).1
  · exact (C4_construction_failure_policy
      (fun _ => .error .defaultCredentialsError) "ns" Option.none
      .defaultCredentialsError rfl rfl).2.1
  · exact ((C4_construction_failure_policy
      (fun _ => .error .defaultCredentialsError) "ns" Option.none
      .defaultCredentialsError rfl rfl).2.2 konfug0 [("K", "ev")] "K"
      (.str "d") false rfl).1 "ev" rfl
  · exact ((C4_construction_failure_policy
      (fun _ => .error .defaultCredentialsError) "ns" Option.none
      .defaultCredentialsError rfl rfl).2.2 konfug0 [] "K"
      (.str "d") false rfl).2 rfl (by decide)

/-- C5 counterexample: a specific-namespace query yielding zero records
with the force flag SET does not succeed; the StopIteration raised by
next(iter(...)) is re-raised and construction fails, refuting that a
zero-record result is never an error regardless of the force flag. -/
theorem C5_zero_records_force_counterexample :
    build_snapshot false true (fun _ => .ok []) "ns" Option.none
      = .error .stopIteration
    ∧ build_snapshot false true (fun _ => .ok []) "ns" Option.none
      ≠ .ok [] := by
  have h : build_snapshot false true (fun _ => .ok []) "ns" Option.none
      = .error .stopIteration := by rfl
  refine ⟨h, ?_⟩
  rw [h]
  simp

/-- C5 amended: a query yielding zero records raises StopIteration,
handled like the other recoverable construction failures: with the
force flag unset construction succeeds with the empty snapshot, with
the force flag set construction fails with that exception. -/
theorem C5_zero_records_policy (query : String → Except PyExc (List Dict))
    (ns : String) (cns : Option String) (hq : query ns = .ok []) :
    build_snapshot false false query ns cns = .ok []
    ∧ build_snapshot false true query ns cns = .error .stopIteration := by
  constructor
  · simp [build_snapshot, fetch_kinds, hq, recoverable]
  · simp [build_snapshot, fetch_kinds, hq, recoverable]

/-- Witness for C5 amended at a concrete zero-record query. -/
theorem C5_zero_records_policy_witness :
    build_snapshot false false (fun _ => .ok []) "ns" Option.none = .ok []
    ∧ build_snapshot false true (fun _ => .ok []) "ns" Option.none
      = .error .stopIteration := by
  exact ⟨(C5_zero_records_policy (fun _ => .ok []) "ns" Option.none rfl).1,
    (C5_zero_records_policy (fun _ => .ok []) "ns" Option.none rfl).2⟩

/-- C10: when the specific-namespace fetch succeeds but the
common-namespace fetch then fails with a caught exception and the force
flag is unset, construction succeeds with the completely empty
snapshot: the already fetched specific record is discarded, because the
merge in the else branch never runs and the handler resets
_common_settings, the only mapping lookups consult, to empty. -/
theorem C10_partial_fetch_discarded
    (query : String → Except PyExc (List Dict)) (ns cns : String)
    (r : Dict) (l : List Dict) (e : PyExc) (hq : query ns = .ok (r :: l))
    (hc : query cns = .error e) (hrec : recoverable e = true) :
    build_snapshot false false query ns (some cns) = .ok [] := by
  simp [build_snapshot, fetch_kinds, hq, hc, hrec]

/-- Witness for C10: the specific namespace holds a nonempty record, the
common namespace query raises a type error, and the snapshot is empty. -/
theorem C10_partial_fetch_discarded_witness :
    build_snapshot false false
      (fun n => if n = "sp" then .ok [[("k", Val.str "v")]]
        else .error .typeError) "sp" (some "co") = .ok [] := by
  exact C10_partial_fetch_discarded
    (fun n => if n = "sp" then .ok [[("k", Val.str "v")]]
      else .error .typeError) "sp" "co" [("k", Val.str "v")] [] .typeError
    rfl rfl rfl

/-- Looking up the key just inserted finds the inserted value. -/
theorem alookup_dictInsert_self {α : Type} (d : List (String × α))
    (k : String) (v : α) : alookup (dictInsert d k v) k = some v := by
  induction d with
  | nil => simp [dictInsert, alookup]
  | cons kv rest ih =>
    obtain ⟨k₂, v₂⟩ := kv
    by_cases h : k₂ = k
    · subst h
      simp [dictInsert, alookup]
    · simp [dictInsert, alookup, h, ih]

/-- Inserting under one key leaves lookups of other keys unchanged. -/
theorem alookup_dictInsert_ne {α : Type} (d : List (String × α))
    (k k₃ : String) (v : α) (h : k ≠ k₃) :
    alookup (dictInsert d k v) k₃ = alookup d k₃ := by
  induction d with
  | nil => simp [dictInsert, alookup, h]
  | cons kv rest ih =>
    obtain ⟨k₂, v₂⟩ := kv
    by_cases h₂ : k₂ = k
    · subst h₂
      simp [dictInsert, alookup, h]
    · simp [dictInsert, alookup, h₂, ih]

/-- A key bound nowhere in the list looks up to none. -/
theorem alookup_eq_none_of_not_mem {α : Type} (d : List (String × α))
    (k : String) (h : k ∉ d.map Prod.fst) : alookup d k = Option.none := by
  induction d with
  | nil => rfl
  | cons kv rest ih =>
    obtain ⟨k₂, v₂⟩ := kv
    simp only [List.map_cons, List.mem_cons] at h
    push_neg at h
    have h₂ : k₂ ≠ k := fun he => h.1 he.symm
    simp [alookup, h₂, ih h.2]

/-- dict.update unfolds one binding at a time. -/
theorem dictUpdate_cons {α : Type} (d : List (String × α)) (k₀ : String)
    (v₀ : α) (rest : List (String × α)) :
    dictUpdate d ((k₀, v₀) :: rest) = dictUpdate (dictInsert d k₀ v₀) rest :=
  rfl

/-- The lookup law of dict.update for an updating dict with unique keys
(as every Python dict has): a binding of the second dict wins, and keys
it does not bind keep the value of the first dict. -/
theorem alookup_dictUpdate {α : Type} (d other : List (String × α))
    (k : String) (hnd : (other.map Prod.fst).Nodup) :
    alookup (dictUpdate d other) k =
      match alookup other k with
      | some v => some v
      | Option.none => alookup d k := by
  induction other generalizing d with
  | nil => simp [dictUpdate, alookup]
  | cons kv rest ih =>
    obtain ⟨k₀, v₀⟩ := kv
    simp only [List.map_cons, List.nodup_cons] at hnd
    rw [dictUpdate_cons, ih (dictInsert d k₀ v₀) hnd.2]
    by_cases hk : k₀ = k
    · subst hk
      have hr : alookup rest k₀ = Option.none :=
        alookup_eq_none_of_not_mem rest k₀ hnd.1
      rw [hr, alookup_dictInsert_self]
      simp [alookup]
    · rw [alookup_dictInsert_ne d k₀ k v₀ hk]
      simp [alookup, hk]

/-- C6: construction merges the common record with the specific record
by dict.update, so a key bound by the specific record yields the
specific value in the merged snapshot, and a key the specific record
does not bind keeps the common value; when both namespace queries
succeed, the built snapshot is exactly that merge. -/
theorem C6_merge_specific_overrides (common specific : Dict) (k : String)
    (hnd : (specific.map Prod.fst).Nodup) :
    (∀ v, alookup specific k = some v →
      alookup (dictUpdate common specific) k = some v)
    ∧ (alookup specific k = Option.none →
      alookup (dictUpdate common specific) k = alookup common k)
    ∧ (∀ (query : String → Except PyExc (List Dict)) (ns cns : String)
        (l₁ l₂ : List Dict) (force : Bool),
      query ns = .ok (specific :: l₁) → query cns = .ok (common :: l₂) →
      build_snapshot false force query ns (some cns)
        = .ok (dictUpdate common specific)) := by
  refine ⟨?_, ?_, ?_⟩
  · intro v h
    rw [alookup_dictUpdate common specific k hnd, h]
  · intro h
    rw [alookup_dictUpdate common specific k hnd, h]
  · intro query ns cns l₁ l₂ force h₁ h₂
    simp [build_snapshot, fetch_kinds, h₁, h₂]

/-- Witness for C6 at concrete records: the shared key takes the
specific value, a common-only key keeps the common value, and a
concrete construction produces the merge. -/
theorem C6_merge_specific_overrides_witness :
    alookup (dictUpdate [("k", Val.str "cv"), ("c", Val.str "co")]
      [("k", Val.str "sv"), ("s", Val.str "sp")]) "k" = some (Val.str "sv")
    ∧ alookup (dictUpdate [("k", Val.str "cv"), ("c", Val.str "co")]
      [("k", Val.str "sv"), ("s", Val.str "sp")]) "c" = some (Val.str "co")
    ∧ build_snapshot false false
      (fun n => if n = "sp" then .ok [[("k", Val.str "sv"), ("s", Val.str "sp")]]
        else .ok [[("k", Val.str "cv"), ("c", Val.str "co")]])
      "sp" (some "co")
      = .ok (dictUpdate [("k", Val.str "cv"), ("c", Val.str "co")]
        [("k", Val.str "sv"), ("s", Val.str "sp")]) := by
  refine ⟨?_, ?_, ?_⟩
  · exact (C6_merge_specific_overrides
      [("k", Val.str "cv"), ("c", Val.str "co")]
      [("k", Val.str "sv"), ("s", Val.str "sp")] "k" (by decide)).1
      (Val.str "sv") (by decide)
  · exact ((C6_merge_specific_overrides
      [("k", Val.str "cv"), ("c", Val.str "co")]
      [("k", Val.str "sv"), ("s", Val.str "sp")] "c" (by decide)).2.1
      (by decide)).trans (by decide)
  · exact (C6_merge_specific_overrides
      [("k", Val.str "cv"), ("c", Val.str "co")]
      [("k", Val.str "sv"), ("s", Val.str "sp")] "k" (by decide)).2.2
      (fun n => if n = "sp" then .ok [[("k", Val.str "sv"), ("s", Val.str "sp")]]
        else .ok [[("k", Val.str "cv"), ("c", Val.str "co")]])
      "sp" "co" [] [] false rfl rfl
